import Mathlib

/-!
Shallow embedding of the loan-scoring core of `src/main.py` (Dossier Immo Pro).

Python `float` values are modelled as `ℚ` (the code performs exact decimal
arithmetic in spirit; all literals such as `0.03`, `0.33`, `0.7` are exact
decimal fractions).  Python `int` fields with nonnegative validated ranges are
modelled as `ℕ` (`loan_duration`, `children`, `borrowers_count`), the borrower
age as `ℤ`.  A Python `dict` used as a record is modelled as a structure; the
free-form consumer-loan dicts (`list[dict]`) are modelled as association lists
`List (String × ℚ)` so that `loan.get('monthly_payment', 0)` becomes
`(loan.lookup "monthly_payment").getD 0`.

Two ambient effects of `evaluate_application` are made explicit parameters:
the global rate table `taux_storage` (read through
`TauxService.get_current_rate` / `get_taux_info`) becomes a `TauxStorage`
argument, and the fresh identifier `str(uuid.uuid4())` becomes a `String`
argument supplied by the caller, as each call draws a fresh one.
-/

namespace DossierImmo

/-- `property_type: Literal["neuf", "ancien"]` -/
inductive PropertyType where
  | neuf
  | ancien
deriving DecidableEq

/-- `status: Literal["cdi", "cdd"]` -/
inductive EmploymentStatus where
  | cdi
  | cdd
deriving DecidableEq

/-- `current_status: Literal["locataire", "proprietaire", "heberge_gratuit"]` -/
inductive HousingStatus where
  | locataire
  | proprietaire
  | heberge_gratuit
deriving DecidableEq

/-- Pydantic model `ProjectInfo` of src/main.py. -/
structure ProjectInfo where
  property_price : ℚ
  property_type : PropertyType
  personal_contribution : ℚ
  loan_duration : ℕ
deriving DecidableEq

/-- Pydantic model `EmploymentInfo` of src/main.py. -/
structure EmploymentInfo where
  status : EmploymentStatus
  net_monthly_income : ℚ
  years_experience : ℚ
  trial_period : Bool
deriving DecidableEq

/-- Pydantic model `BorrowerInfo` of src/main.py. -/
structure BorrowerInfo where
  employment : EmploymentInfo
  age : ℤ
deriving DecidableEq

/-- Pydantic model `HouseholdInfo` of src/main.py. -/
structure HouseholdInfo where
  borrowers_count : ℕ
  main_borrower : BorrowerInfo
  co_borrower : Option BorrowerInfo
  children : ℕ
deriving DecidableEq

/-- Pydantic model `HousingInfo` of src/main.py. -/
structure HousingInfo where
  current_status : HousingStatus
  monthly_rent : ℚ
  current_mortgage : ℚ
  changing_main_residence : Bool
deriving DecidableEq

/-- Pydantic model `FinancialInfo` of src/main.py; each consumer-loan dict is an
association list. -/
structure FinancialInfo where
  consumer_loans : List (List (String × ℚ))
  rental_income : ℚ
  other_income : ℚ
deriving DecidableEq

/-- Pydantic model `LoanApplication` of src/main.py. -/
structure LoanApplication where
  project : ProjectInfo
  household : HouseholdInfo
  housing : HousingInfo
  financial : FinancialInfo
deriving DecidableEq

/-- `status: Literal["favorable", "moyen", "difficile"]` of `ScoringResult`. -/
inductive ScoringStatus where
  | favorable
  | moyen
  | difficile
deriving DecidableEq

/-- Pydantic model `ScoringResult` of src/main.py; the `criteria_details` dict
keeps Python insertion order, modelled as an ordered association list. -/
structure ScoringResult where
  application_id : String
  feasibility_score : ℕ
  status : ScoringStatus
  criteria_details : List (String × String)
  recommendations : List String
  monthly_payment : ℚ
  total_budget : ℚ
  current_interest_rate : ℚ
  rate_source : String
  rate_last_update : String
deriving DecidableEq

/-- The global dict `taux_storage` of src/main.py: string-keyed duration
buckets mapped to annual rates, plus provenance metadata.  `date_maj` is set
to `datetime.now().isoformat()` at runtime; here it is an opaque string. -/
structure TauxStorage where
  date_maj : String
  taux : List (String × ℚ)
  source : String
deriving DecidableEq

/-- The initial value of the module-level `taux_storage` dict (the `date_maj`
runtime timestamp is a placeholder string). -/
def taux_storage : TauxStorage :=
  { date_maj := "startup"
    taux := [("10", 0.0285), ("15", 0.0303), ("20", 0.0316), ("25", 0.0326), ("30", 0.0340)]
    source := "seloger.com" }

namespace TauxService

/-- `TauxService.get_current_rate`: `taux_storage["taux"].get(str(duration), 0.035)`
wrapped in `try/except` returning `0.035`.  The dict `.get` never raises and
the storage always has a `"taux"` key, so the embedding is the total lookup
with default `0.035`; the ambient global is an explicit argument. -/
def get_current_rate (storage : TauxStorage) (duration : ℕ) : ℚ :=
  (storage.taux.lookup (toString duration)).getD 0.035

end TauxService

/-- Python `round`-to-even of the format spec `.0f`: nearest integer, ties to
even. -/
def roundHalfEven (q : ℚ) : ℤ :=
  let f := ⌊q⌋
  let r := q - f
  if r < 1 / 2 then f
  else if 1 / 2 < r then f + 1
  else if f % 2 = 0 then f else f + 1

/-- Rendering of the Python format spec `.0f` (no decimals). -/
def fmt0 (q : ℚ) : String :=
  toString (roundHalfEven q)

/-- Rendering of the Python format spec `,.0f`: no decimals, thousands
separated by commas. -/
def fmtComma0 (q : ℚ) : String :=
  let n := roundHalfEven q
  let sign := if n < 0 then "-" else ""
  let ds := (toString n.natAbs).toList
  sign ++ String.mk (List.intercalate [','] (((ds.reverse.toChunks 3).map List.reverse).reverse))

/-- Rendering of the Python format spec `.1%`: value as a percentage with one
decimal digit. -/
def fmtPct1 (q : ℚ) : String :=
  let t := roundHalfEven (q * 1000)
  let sign := if t < 0 then "-" else ""
  let m := t.natAbs
  sign ++ toString (m / 10) ++ "." ++ toString (m % 10) ++ "%"

namespace LoanScoringService

/-- `LoanScoringService.calculate_notary_fees`. -/
def calculate_notary_fees (price : ℚ) (property_type : PropertyType) : ℚ :=
  if property_type = .neuf then price * 0.03
  else price * 0.08

/-- `LoanScoringService.calculate_monthly_payment`.  The Python `rate=None`
default (which re-reads the global rate table) is omitted:
`evaluate_application` always passes the rate explicitly. -/
def calculate_monthly_payment (amount : ℚ) (duration_years : ℕ) (rate : ℚ) : ℚ :=
  let monthly_rate := rate / 12
  let n_payments := duration_years * 12
  if monthly_rate = 0 then amount / n_payments
  else amount * (monthly_rate * (1 + monthly_rate) ^ n_payments) / ((1 + monthly_rate) ^ n_payments - 1)

/-- `LoanScoringService.calculate_eligible_income`.  The trailing `return 0`
of the Python body is unreachable (`status` is a two-value `Literal`). -/
def calculate_eligible_income (employment : EmploymentInfo) : ℚ :=
  let base_income := employment.net_monthly_income
  match employment.status with
  | .cdi => if employment.trial_period then 0 else base_income
  | .cdd => if employment.years_experience ≥ 3 then base_income * 0.7 else 0

/-- `LoanScoringService.calculate_current_charges`: the `if/elif` adds the
current mortgage only for `proprietaire` with `changing_main_residence`;
`locataire` adds `0` and `heberge_gratuit` falls through both branches;
then every consumer-loan dict contributes `loan.get('monthly_payment', 0)`. -/
def calculate_current_charges (housing : HousingInfo) (financial : FinancialInfo) : ℚ :=
  let charges : ℚ := 0
  let charges :=
    match housing.current_status with
    | .locataire => charges + 0
    | .proprietaire =>
        if housing.changing_main_residence then charges + housing.current_mortgage else charges
    | .heberge_gratuit => charges
  charges + (financial.consumer_loans.map (fun loan => (loan.lookup "monthly_payment").getD 0)).sum

/-- `LoanScoringService.calculate_total_eligible_income`; Python
`if household.co_borrower:` is the `Option.elim` on the optional co-borrower. -/
def calculate_total_eligible_income (household : HouseholdInfo) (financial : FinancialInfo) : ℚ :=
  let main_income := calculate_eligible_income household.main_borrower.employment
  let co_income :=
    match household.co_borrower with
    | some co => calculate_eligible_income co.employment
    | none => 0
  let rental_income_eligible := financial.rental_income * 0.7
  main_income + co_income + rental_income_eligible + financial.other_income

/-! The local variables computed inside `evaluate_application` are hoisted to
named definitions, each a direct transcription of the corresponding line of
the Python body; `evaluate_application` below recomposes them. -/

/-- `notary_fees` local of `evaluate_application`. -/
def notary_fees (a : LoanApplication) : ℚ :=
  calculate_notary_fees a.project.property_price a.project.property_type

/-- `total_budget = property_price + notary_fees`. -/
def total_budget (a : LoanApplication) : ℚ :=
  a.project.property_price + notary_fees a

/-- `loan_amount = total_budget - personal_contribution`. -/
def loan_amount (a : LoanApplication) : ℚ :=
  total_budget a - a.project.personal_contribution

/-- `total_income` local of `evaluate_application`. -/
def total_income (a : LoanApplication) : ℚ :=
  calculate_total_eligible_income a.household a.financial

/-- `current_rate` local of `evaluate_application`. -/
def current_rate (a : LoanApplication) (storage : TauxStorage) : ℚ :=
  TauxService.get_current_rate storage a.project.loan_duration

/-- `monthly_payment` local of `evaluate_application`. -/
def monthly_payment (a : LoanApplication) (storage : TauxStorage) : ℚ :=
  calculate_monthly_payment (loan_amount a) a.project.loan_duration (current_rate a storage)

/-- `current_charges` local of `evaluate_application`. -/
def current_charges (a : LoanApplication) : ℚ :=
  calculate_current_charges a.housing a.financial

/-- `household_size = borrowers_count + children`. -/
def household_size (a : LoanApplication) : ℕ :=
  a.household.borrowers_count + a.household.children

/-- `min_remaining = household_size * 750`. -/
def min_remaining (a : LoanApplication) : ℚ :=
  (household_size a : ℚ) * 750

/-- `min_contribution = total_budget * 0.10`. -/
def min_contribution (a : LoanApplication) : ℚ :=
  total_budget a * 0.10

/-- Pass test of the `apport` criterion:
`personal_contribution >= min_contribution`. -/
def apport_ok (a : LoanApplication) : Bool :=
  decide (min_contribution a ≤ a.project.personal_contribution)

/-- `main_income` local of the `revenus` criterion. -/
def main_income (a : LoanApplication) : ℚ :=
  calculate_eligible_income a.household.main_borrower.employment

/-- Pass test of the `revenus` criterion: `main_income > 0`. -/
def revenus_ok (a : LoanApplication) : Bool :=
  decide (0 < main_income a)

/-- `total_charges = monthly_payment + current_charges`. -/
def total_charges (a : LoanApplication) (storage : TauxStorage) : ℚ :=
  monthly_payment a storage + current_charges a

/-- `debt_ratio = (total_charges / total_income) if total_income > 0 else 1`. -/
def taux_endettement (a : LoanApplication) (storage : TauxStorage) : ℚ :=
  if 0 < total_income a then total_charges a storage / total_income a else 1

/-- Pass test of the `endettement` criterion: `debt_ratio <= 0.33`. -/
def endettement_ok (a : LoanApplication) (storage : TauxStorage) : Bool :=
  decide (taux_endettement a storage ≤ 0.33)

/-- `remaining = total_income - total_charges`. -/
def remaining (a : LoanApplication) (storage : TauxStorage) : ℚ :=
  total_income a - total_charges a storage

/-- Pass test of the `reste_vivre` criterion: `remaining >= min_remaining`. -/
def reste_vivre_ok (a : LoanApplication) (storage : TauxStorage) : Bool :=
  decide (min_remaining a ≤ remaining a storage)

/-- `loan_end_age = main_borrower.age + loan_duration`. -/
def loan_end_age (a : LoanApplication) : ℤ :=
  a.household.main_borrower.age + (a.project.loan_duration : ℤ)

/-- Pass test of the `age` criterion: `loan_end_age <= 64`. -/
def age_ok (a : LoanApplication) : Bool :=
  decide (loan_end_age a ≤ 64)

/-- The `score` accumulated by the five `score += weight` statements. -/
def score (a : LoanApplication) (storage : TauxStorage) : ℕ :=
  (if apport_ok a then 30 else 0) +
  (if revenus_ok a then 20 else 0) +
  (if endettement_ok a storage then 30 else 0) +
  (if reste_vivre_ok a storage then 10 else 0) +
  (if age_ok a then 10 else 0)

/-- The final status mapping: `score >= 80` favorable, `score >= 50` moyen,
else difficile. -/
def status_of (s : ℕ) : ScoringStatus :=
  if 80 ≤ s then .favorable
  else if 50 ≤ s then .moyen
  else .difficile

/-- The `criteria` dict in insertion order, with the verdict strings built as
in the Python f-strings (number formats `.0f`, `,.0f`, `.1%` rendered by
`fmt0`, `fmtComma0`, `fmtPct1`). -/
def criteria_details (a : LoanApplication) (storage : TauxStorage) : List (String × String) :=
  [("apport",
      if apport_ok a then "✅ Apport suffisant"
      else "❌ Apport insuffisant (" ++ fmt0 (min_contribution a) ++ "€ minimum)"),
   ("revenus",
      if revenus_ok a then "✅ Revenus éligibles : " ++ fmtComma0 (total_income a) ++ "€/mois"
      else "❌ Revenus non éligibles"),
   ("endettement",
      if endettement_ok a storage then
        "✅ Taux d\x27endettement : " ++ fmtPct1 (taux_endettement a storage)
      else "❌ Taux d\x27endettement trop élevé : " ++ fmtPct1 (taux_endettement a storage)),
   ("reste_vivre",
      if reste_vivre_ok a storage then "✅ Reste à vivre : " ++ fmt0 (remaining a storage) ++ "€"
      else "❌ Reste à vivre insuffisant : " ++ fmt0 (remaining a storage) ++ "€"),
   ("age",
      if age_ok a then "✅ Fin de crédit à " ++ toString (loan_end_age a) ++ " ans"
      else "❌ Fin de crédit à " ++ toString (loan_end_age a) ++ " ans (limite 64 ans)")]

/-- The `recommendations` list: one entry appended per failed criterion, in
criteria order. -/
def recommendations (a : LoanApplication) (storage : TauxStorage) : List String :=
  (if apport_ok a then []
   else ["Augmentez votre apport à " ++ fmt0 (min_contribution a) ++ "€ minimum"]) ++
  (if revenus_ok a then []
   else ["Obtenez un CDI ou justifiez 3 ans d\x27ancienneté en CDD"]) ++
  (if endettement_ok a storage then []
   else ["Réduisez vos charges ou augmentez vos revenus"]) ++
  (if reste_vivre_ok a storage then []
   else ["Assurez-vous d\x27avoir " ++ fmt0 (min_remaining a) ++ "€ de reste à vivre"]) ++
  (if age_ok a then [] else ["Réduisez la durée du prêt"])

/-- `LoanScoringService.evaluate_application`, recomposed from the hoisted
locals.  `storage` is the ambient global rate table (also read through
`get_taux_info` for provenance: `taux_info.get("source", ...)` and
`taux_info.get("date_maj", ...)` always find their keys here), and
`fresh_uuid` is the `str(uuid.uuid4())` drawn by this invocation. -/
def evaluate_application (a : LoanApplication) (storage : TauxStorage)
    (fresh_uuid : String) : ScoringResult :=
  { application_id := fresh_uuid
    feasibility_score := score a storage
    status := status_of (score a storage)
    criteria_details := criteria_details a storage
    recommendations := recommendations a storage
    monthly_payment := monthly_payment a storage
    total_budget := total_budget a
    current_interest_rate := current_rate a storage
    rate_source := storage.source
    rate_last_update := storage.date_maj }

end LoanScoringService

/-- The pydantic `Field` range constraints of the input models: an application
accepted by the API layer satisfies all of them. -/
def ValidEmployment (e : EmploymentInfo) : Prop :=
  0 < e.net_monthly_income ∧ 0 ≤ e.years_experience

/-- Range constraints of `BorrowerInfo`. -/
def ValidBorrower (b : BorrowerInfo) : Prop :=
  ValidEmployment b.employment ∧ 18 ≤ b.age ∧ b.age ≤ 80

/-- Range constraints of a whole `LoanApplication`. -/
def ValidApplication (a : LoanApplication) : Prop :=
  0 < a.project.property_price ∧
  0 ≤ a.project.personal_contribution ∧
  5 ≤ a.project.loan_duration ∧ a.project.loan_duration ≤ 30 ∧
  (a.household.borrowers_count = 1 ∨ a.household.borrowers_count = 2) ∧
  ValidBorrower a.household.main_borrower ∧
  (∀ co ∈ a.household.co_borrower, ValidBorrower co) ∧
  a.household.children ≤ 20 ∧
  0 ≤ a.housing.monthly_rent ∧
  0 ≤ a.housing.current_mortgage ∧
  0 ≤ a.financial.rental_income ∧
  0 ≤ a.financial.other_income

end DossierImmo

namespace DossierImmo

open LoanScoringService

/-- A concrete application within all validated ranges, used as a test input:
price 200000, existing property, contribution 20000, duration 20 years, one
permanent non-trial borrower aged 30 with net income 3000, tenant, no
consumer loans, no extra income, no children. -/
def sampleApp : LoanApplication :=
  { project := ⟨200000, .ancien, 20000, 20⟩
    household := ⟨1, ⟨⟨.cdi, 3000, 10, false⟩, 30⟩, none, 0⟩
    housing := ⟨.locataire, 800, 0, true⟩
    financial := ⟨[], 0, 0⟩ }

/-- C1: `calculate_eligible_income` returns the full net monthly income for a
permanent (cdi) contract unless the trial-period flag is set (then 0), and for
a fixed-term (cdd) contract returns exactly 70% of the net income when the
years of experience are at least 3 and 0 otherwise, regardless of the income
magnitude. -/
theorem eligible_income_cases (e : EmploymentInfo) :
    calculate_eligible_income e =
      if e.status = .cdi then (if e.trial_period then 0 else e.net_monthly_income)
      else if 3 ≤ e.years_experience then 7 / 10 * e.net_monthly_income else 0 := by
  obtain ⟨st, inc, yrs, tr⟩ := e
  cases st
  · simp [calculate_eligible_income]
  · simp [calculate_eligible_income, ge_iff_le]
    split_ifs
    · ring
    · rfl

/-- C5: `calculate_current_charges` adds no housing charge for a tenant or a
hosted-free applicant, adds the current mortgage payment exactly when the
status is owner and the changing-main-residence flag is set, and always adds
the sum of the declared consumer-loan monthly payments. -/
theorem current_charges_cases (h : HousingInfo) (f : FinancialInfo) :
    calculate_current_charges h f =
      (if h.current_status = .proprietaire ∧ h.changing_main_residence
        then h.current_mortgage else 0) +
      (f.consumer_loans.map (fun loan => (loan.lookup "monthly_payment").getD 0)).sum := by
  obtain ⟨st, rent, mort, flag⟩ := h
  cases st <;> cases flag <;> simp [calculate_current_charges]

/-- C6: the rate lookup returns the snapshot rate of the bucket whose string
key equals the duration and falls back to the fixed 0.035 when no bucket
matches; it is a total function, so no error is ever raised. -/
theorem get_current_rate_total (storage : TauxStorage) (duration : ℕ) :
    (∀ r, storage.taux.lookup (toString duration) = some r →
      TauxService.get_current_rate storage duration = r) ∧
    (storage.taux.lookup (toString duration) = none →
      TauxService.get_current_rate storage duration = 0.035) := by
  refine ⟨fun r hr => ?_, fun hn => ?_⟩
  · simp [TauxService.get_current_rate, hr]
  · simp [TauxService.get_current_rate, hn]

/-- Witness for C6: the 20-year bucket of the startup table yields 0.0316 and
the unlisted 7-year duration yields the fallback 0.035. -/
theorem get_current_rate_total_witness :
    taux_storage.taux.lookup (toString (20 : ℕ)) = some 0.0316 ∧
    TauxService.get_current_rate taux_storage 20 = 0.0316 ∧
    taux_storage.taux.lookup (toString (7 : ℕ)) = none ∧
    TauxService.get_current_rate taux_storage 7 = 0.035 :=
  ⟨rfl, (get_current_rate_total taux_storage 20).1 0.0316 rfl, rfl,
    (get_current_rate_total taux_storage 7).2 rfl⟩

/-- C9: `monthly_rent` is never read by the evaluation: two applications that
differ only in `housing.monthly_rent` produce identical `ScoringResult`s
(field for field, given the same fresh identifier), so the rent influences no
score, criterion, charge, or recommendation. -/
theorem monthly_rent_never_read (a : LoanApplication) (storage : TauxStorage)
    (u : String) (x : ℚ) :
    evaluate_application { a with housing := { a.housing with monthly_rent := x } } storage u =
      evaluate_application a storage u := rfl

/-- C10: a consumer-loan dict without a 'monthly_payment' key contributes
exactly 0 to the current charges and causes no error (`loan.get` with default
0 is total). -/
theorem missing_monthly_payment_key_contributes_zero (housing : HousingInfo)
    (financial : FinancialInfo) (loan : List (String × ℚ))
    (h : loan.lookup "monthly_payment" = none) :
    calculate_current_charges housing
        { financial with consumer_loans := loan :: financial.consumer_loans } =
      calculate_current_charges housing financial := by
  simp [calculate_current_charges, h]

/-- Witness for C10: a loan dict holding only a 'label' key adds nothing to
the charges. -/
theorem missing_monthly_payment_key_witness :
    calculate_current_charges ⟨.locataire, 0, 0, true⟩
        { consumer_loans := [[("label", 5)]], rental_income := 0, other_income := 0 } =
      calculate_current_charges ⟨.locataire, 0, 0, true⟩
        { consumer_loans := [], rental_income := 0, other_income := 0 } :=
  missing_monthly_payment_key_contributes_zero ⟨.locataire, 0, 0, true⟩
    ⟨[], 0, 0⟩ [("label", 5)] rfl

/-- Counterexample to C3: two invocations of `evaluate_application` on the
same application and the same rate snapshot differ, because each invocation
embeds the fresh `uuid.uuid4()` identifier it drew into the result. -/
theorem evaluate_application_uuid_nondeterminism :
    evaluate_application sampleApp taux_storage "3f0c" ≠
      evaluate_application sampleApp taux_storage "a911" := by
  intro h
  exact absurd (congrArg ScoringResult.application_id h) (by decide)

/-- C3 amended: apart from the freshly drawn application identifier, the
evaluation is deterministic and side-effect-free: every other field of the
`ScoringResult` is a pure function of the application and the rate snapshot,
so it agrees across any two invocations. -/
theorem evaluate_application_deterministic_modulo_id (a : LoanApplication)
    (storage : TauxStorage) (u₁ u₂ : String) :
    (evaluate_application a storage u₁).feasibility_score =
        (evaluate_application a storage u₂).feasibility_score ∧
    (evaluate_application a storage u₁).status =
        (evaluate_application a storage u₂).status ∧
    (evaluate_application a storage u₁).criteria_details =
        (evaluate_application a storage u₂).criteria_details ∧
    (evaluate_application a storage u₁).recommendations =
        (evaluate_application a storage u₂).recommendations ∧
    (evaluate_application a storage u₁).monthly_payment =
        (evaluate_application a storage u₂).monthly_payment ∧
    (evaluate_application a storage u₁).total_budget =
        (evaluate_application a storage u₂).total_budget ∧
    (evaluate_application a storage u₁).current_interest_rate =
        (evaluate_application a storage u₂).current_interest_rate ∧
    (evaluate_application a storage u₁).rate_source =
        (evaluate_application a storage u₂).rate_source ∧
    (evaluate_application a storage u₁).rate_last_update =
        (evaluate_application a storage u₂).rate_last_update :=
  ⟨rfl, rfl, rfl, rfl, rfl, rfl, rfl, rfl, rfl⟩

/-- C7: the feasibility score is the sum of one weight per passed criterion,
a subset of the multiset of weights 30, 20, 30, 10, 10, and hence is always
at most 100 (it is a natural number, so it also is at least 0). -/
theorem feasibility_score_subset_sum (a : LoanApplication) (storage : TauxStorage)
    (u : String) :
    (∃ b₁ b₂ b₃ b₄ b₅ : Bool,
        (evaluate_application a storage u).feasibility_score =
          (if b₁ then 30 else 0) + (if b₂ then 20 else 0) + (if b₃ then 30 else 0) +
            (if b₄ then 10 else 0) + (if b₅ then 10 else 0)) ∧
      (evaluate_application a storage u).feasibility_score ≤ 100 := by
  refine ⟨⟨apport_ok a, revenus_ok a, endettement_ok a storage,
    reste_vivre_ok a storage, age_ok a, rfl⟩, ?_⟩
  show score a storage ≤ 100
  unfold score
  split_ifs <;> norm_num

end DossierImmo

namespace DossierImmo

open LoanScoringService

/-- Sign lemma for the amortization formula: a nonpositive principal and a
nonnegative rate give a nonpositive payment (both branches of the formula). -/
theorem calculate_monthly_payment_nonpos (amount : ℚ) (d : ℕ) (rate : ℚ)
    (ha : amount ≤ 0) (hr : 0 ≤ rate) :
    calculate_monthly_payment amount d rate ≤ 0 := by
  unfold calculate_monthly_payment
  dsimp only
  split_ifs with h0
  · exact div_nonpos_iff.mpr (Or.inr ⟨ha, by positivity⟩)
  · have hi : 0 < rate / 12 := lt_of_le_of_ne (by positivity) (Ne.symm h0)
    have hnum : amount * (rate / 12 * (1 + rate / 12) ^ (d * 12)) ≤ 0 :=
      mul_nonpos_iff.mpr (Or.inr ⟨ha, by positivity⟩)
    have hden : 0 ≤ (1 + rate / 12) ^ (d * 12) - 1 := by
      have h1 : (1 : ℚ) ≤ (1 + rate / 12) ^ (d * 12) := one_le_pow₀ (by linarith)
      linarith
    exact div_nonpos_iff.mpr (Or.inr ⟨hnum, hden⟩)

/-- Strict sign lemma: a negative principal, a positive rate and a positive
duration give a strictly negative payment. -/
theorem calculate_monthly_payment_neg (amount : ℚ) (d : ℕ) (rate : ℚ)
    (ha : amount < 0) (hr : 0 < rate) (hd : 1 ≤ d) :
    calculate_monthly_payment amount d rate < 0 := by
  unfold calculate_monthly_payment
  dsimp only
  have hi : 0 < rate / 12 := by positivity
  rw [if_neg (ne_of_gt hi)]
  apply div_neg_of_neg_of_pos
  · exact mul_neg_of_neg_of_pos ha (by positivity)
  · have h1 : (1 : ℚ) < (1 + rate / 12) ^ (d * 12) :=
      one_lt_pow₀ (by linarith) (by omega)
    linarith

/-- An application whose personal contribution exceeds its total budget:
price 100000, new property (3% fee, budget 103000), contribution 200000,
so the loan amount is -97000. -/
def overfundedApp : LoanApplication :=
  { project := ⟨100000, .neuf, 200000, 20⟩
    household := ⟨1, ⟨⟨.cdi, 3000, 10, false⟩, 30⟩, none, 0⟩
    housing := ⟨.locataire, 0, 0, true⟩
    financial := ⟨[], 0, 0⟩ }

/-- Counterexample to C2: on an over-funded application the engine does not
treat the monthly payment as 0 — the amortization formula is applied to the
negative loan amount unclamped, and the `ScoringResult` carries a strictly
negative monthly payment. -/
theorem overfunded_payment_negative :
    (evaluate_application overfundedApp taux_storage "c2").monthly_payment < 0 := by
  show calculate_monthly_payment (loan_amount overfundedApp)
    overfundedApp.project.loan_duration (current_rate overfundedApp taux_storage) < 0
  have h1 : loan_amount overfundedApp = -97000 := by
    norm_num [loan_amount, total_budget, notary_fees, calculate_notary_fees, overfundedApp]
  have h2 : overfundedApp.project.loan_duration = 20 := rfl
  have h3 : current_rate overfundedApp taux_storage = 0.0316 := rfl
  rw [h1, h2, h3]
  exact calculate_monthly_payment_neg _ _ _ (by norm_num) (by norm_num) (by norm_num)

/-- C2 amended: for every application whose personal contribution is at least
the total budget (loan amount ≤ 0) and whose looked-up rate is nonnegative,
the engine does not crash — every field of the `ScoringResult` is a defined
value — but it does not clamp: the monthly payment is the amortization
formula applied to the nonpositive loan amount, hence itself ≤ 0 (strictly
negative when strictly over-funded), and this value flows into the downstream
criteria. -/
theorem overfunded_payment_not_clamped (a : LoanApplication) (storage : TauxStorage)
    (u : String) (hr : 0 ≤ current_rate a storage) (hL : loan_amount a ≤ 0) :
    (evaluate_application a storage u).monthly_payment =
      calculate_monthly_payment (loan_amount a) a.project.loan_duration
        (current_rate a storage) ∧
    (evaluate_application a storage u).monthly_payment ≤ 0 :=
  ⟨rfl, calculate_monthly_payment_nonpos _ _ _ hL hr⟩

/-- Witness for the amended C2 at the over-funded application. -/
theorem overfunded_payment_not_clamped_witness :
    0 ≤ current_rate overfundedApp taux_storage ∧ loan_amount overfundedApp ≤ 0 ∧
    (evaluate_application overfundedApp taux_storage "w2").monthly_payment ≤ 0 := by
  have hr : 0 ≤ current_rate overfundedApp taux_storage := by
    have h3 : current_rate overfundedApp taux_storage = 0.0316 := rfl
    rw [h3]; norm_num
  have hL : loan_amount overfundedApp ≤ 0 := by
    norm_num [loan_amount, total_budget, notary_fees, calculate_notary_fees, overfundedApp]
  exact ⟨hr, hL, (overfunded_payment_not_clamped overfundedApp taux_storage "w2" hr hL).2⟩

/-- Eligible income is nonnegative whenever the declared net income is
positive (as the validated input range guarantees). -/
theorem eligible_income_nonneg (e : EmploymentInfo) (h : 0 < e.net_monthly_income) :
    0 ≤ calculate_eligible_income e := by
  obtain ⟨st, inc, yrs, tr⟩ := e
  simp only at h
  cases st <;> simp only [calculate_eligible_income] <;> split_ifs <;> linarith

/-- Total eligible income of a validated application is nonnegative. -/
theorem total_income_nonneg (a : LoanApplication) (hv : ValidApplication a) :
    0 ≤ total_income a := by
  obtain ⟨-, -, -, -, -, hmb, hco, -, -, -, hrental, hother⟩ := hv
  unfold total_income calculate_total_eligible_income
  have h1 := eligible_income_nonneg _ hmb.1.1
  have h2 : 0 ≤ (match a.household.co_borrower with
      | some co => calculate_eligible_income co.employment
      | none => (0 : ℚ)) := by
    cases hc : a.household.co_borrower with
    | none => simp
    | some co =>
        simpa using eligible_income_nonneg co.employment ((hco co (by simp [hc])).1.1)
  have h3 : 0 ≤ a.financial.rental_income * 0.7 := by
    have : (0 : ℚ) ≤ 0.7 := by norm_num
    exact mul_nonneg hrental this
  simp only
  linarith

/-- The code's debt ratio (guarded by `total_income > 0`) coincides with the
specified claim ratio (guarded by `total_income = 0`) whenever the total
income is nonnegative. -/
theorem taux_endettement_eq_claim (a : LoanApplication) (storage : TauxStorage)
    (h : 0 ≤ total_income a) :
    taux_endettement a storage =
      (if total_income a = 0 then 1
       else (monthly_payment a storage + current_charges a) / total_income a) := by
  unfold taux_endettement total_charges
  rcases eq_or_lt_of_le h with h0 | h0
  · rw [if_neg (by rw [← h0]; exact lt_irrefl 0), if_pos h0.symm]
  · rw [if_pos h0, if_neg (ne_of_gt h0)]

end DossierImmo

namespace DossierImmo

open LoanScoringService

/-- C4: the debt-ratio criterion contributes exactly 30 points to the score
if and only if (monthly_payment + current_charges) / total_eligible_income is
at most 0.33, the ratio being taken as 1 (hence failing) when the total
eligible income is 0; and on failure the fixed recommendation string is
appended to the recommendations. -/
theorem endettement_criterion (a : LoanApplication) (storage : TauxStorage) (u : String)
    (hv : ValidApplication a) :
    ((evaluate_application a storage u).feasibility_score =
        (if apport_ok a then 30 else 0) + (if revenus_ok a then 20 else 0) +
          (if (if total_income a = 0 then (1 : ℚ)
              else (monthly_payment a storage + current_charges a) / total_income a) ≤ 0.33
            then 30 else 0) +
          (if reste_vivre_ok a storage then 10 else 0) + (if age_ok a then 10 else 0)) ∧
    (¬ (if total_income a = 0 then (1 : ℚ)
        else (monthly_payment a storage + current_charges a) / total_income a) ≤ 0.33 →
      "Réduisez vos charges ou augmentez vos revenus" ∈
        (evaluate_application a storage u).recommendations) := by
  have hte := (taux_endettement_eq_claim a storage (total_income_nonneg a hv)).symm
  constructor
  · show score a storage = _
    rw [hte]
    simp only [score, endettement_ok, decide_eq_true_eq]
  · intro hfail
    rw [hte] at hfail
    have he : endettement_ok a storage = false := decide_eq_false hfail
    show _ ∈ recommendations a storage
    simp [recommendations, he]

/-- Witness for C4 at the sample application (eligible income 3000, payment
about 1102.78, ratio about 36.8%, so the criterion fails there). -/
theorem endettement_criterion_witness :
    ValidApplication sampleApp ∧
    ((evaluate_application sampleApp taux_storage "w4").feasibility_score =
        (if apport_ok sampleApp then 30 else 0) + (if revenus_ok sampleApp then 20 else 0) +
          (if (if total_income sampleApp = 0 then (1 : ℚ)
              else (monthly_payment sampleApp taux_storage + current_charges sampleApp) /
                total_income sampleApp) ≤ 0.33
            then 30 else 0) +
          (if reste_vivre_ok sampleApp taux_storage then 10 else 0) +
          (if age_ok sampleApp then 10 else 0)) ∧
    (¬ (if total_income sampleApp = 0 then (1 : ℚ)
        else (monthly_payment sampleApp taux_storage + current_charges sampleApp) /
          total_income sampleApp) ≤ 0.33 →
      "Réduisez vos charges ou augmentez vos revenus" ∈
        (evaluate_application sampleApp taux_storage "w4").recommendations) := by
  have hvco : ∀ co ∈ sampleApp.household.co_borrower, ValidBorrower co := by
    intro co hc
    simp [sampleApp] at hc
  have hv : ValidApplication sampleApp := by
    refine ⟨?_, ?_, ?_, ?_, Or.inl rfl, ⟨⟨?_, ?_⟩, ?_, ?_⟩,
      hvco, ?_, ?_, ?_, ?_, ?_⟩ <;> norm_num [sampleApp]
  exact ⟨hv, endettement_criterion sampleApp taux_storage "w4" hv⟩

/-- The application of the spec worked example: price 200000, existing
property, contribution 20000, duration 20 years, one permanent non-trial
borrower with net income 3000, no charges, no children.  The example leaves
the borrower age and years of experience unspecified, so they are
parameters. -/
def c8App (age : ℤ) (yexp : ℚ) : LoanApplication :=
  { project := ⟨200000, .ancien, 20000, 20⟩
    household := ⟨1, ⟨⟨.cdi, 3000, yexp, false⟩, age⟩, none, 0⟩
    housing := ⟨.locataire, 0, 0, true⟩
    financial := ⟨[], 0, 0⟩ }

/-- The loan amount of the worked example is 196000. -/
theorem c8_loan_amount (age : ℤ) (yexp : ℚ) : loan_amount (c8App age yexp) = 196000 := by
  simp [loan_amount, total_budget, notary_fees, calculate_notary_fees, c8App]
  norm_num

/-- The worked-example payment is the amortization formula at principal
196000, 20 years, rate 0.0316. -/
theorem c8_payment_eq (age : ℤ) (yexp : ℚ) :
    monthly_payment (c8App age yexp) taux_storage =
      calculate_monthly_payment 196000 20 0.0316 := by
  unfold monthly_payment
  have h2 : (c8App age yexp).project.loan_duration = 20 := rfl
  have h3 : current_rate (c8App age yexp) taux_storage = 0.0316 :=
    Eq.trans
      (rfl : current_rate (c8App age yexp) taux_storage =
        TauxService.get_current_rate taux_storage 20)
      (rfl : TauxService.get_current_rate taux_storage 20 = 0.0316)
  rw [c8_loan_amount, h2, h3]

/-- Exact rational bounds on the worked-example payment: it lies between 1102
and 1103 (numerically about 1102.78). -/
theorem c8_payment_bounds :
    1102 ≤ calculate_monthly_payment 196000 20 0.0316 ∧
      calculate_monthly_payment 196000 20 0.0316 ≤ 1103 := by
  unfold calculate_monthly_payment
  norm_num

/-- A failed contribution criterion caps the score at 70 (the other four
weights sum to 70). -/
theorem score_le_of_apport_fail (a : LoanApplication) (storage : TauxStorage)
    (h : apport_ok a = false) : score a storage ≤ 70 := by
  unfold score
  simp only [h, Bool.false_eq_true, if_false]
  split_ifs <;> norm_num

/-- Counterexample to C8: for the worked example (taking age 30 and 10 years
of experience), the monthly payment at rate 0.0316 is about 1102.78, which is
not within 1 of the 1121 stated by the spec. -/
theorem c8_payment_not_1121 :
    ¬ |(evaluate_application (c8App 30 10) taux_storage "c8").monthly_payment - 1121| ≤ 1 := by
  have hpe := c8_payment_eq 30 10
  have hb := c8_payment_bounds
  show ¬ |monthly_payment (c8App 30 10) taux_storage - 1121| ≤ 1
  rw [hpe, abs_le]
  intro hcon
  obtain ⟨hc1, -⟩ := hcon
  linarith [hb.2]

/-- C8 amended: for the worked example (any age, any years of experience) the
engine computes notary fee 16000, total budget 216000, loan amount 196000,
rate 0.0316, a monthly payment within 1 of 1103 (not of the 1121 stated by
the spec), the contribution criterion fails (20000 < 21600) with a
recommendation emitted, and the score is strictly below 100. -/
theorem c8_example_evaluation (age : ℤ) (yexp : ℚ) :
    notary_fees (c8App age yexp) = 16000 ∧
    (evaluate_application (c8App age yexp) taux_storage "w8").total_budget = 216000 ∧
    loan_amount (c8App age yexp) = 196000 ∧
    (evaluate_application (c8App age yexp) taux_storage "w8").current_interest_rate = 0.0316 ∧
    |(evaluate_application (c8App age yexp) taux_storage "w8").monthly_payment - 1103| ≤ 1 ∧
    apport_ok (c8App age yexp) = false ∧
    (evaluate_application (c8App age yexp) taux_storage "w8").recommendations ≠ [] ∧
    (evaluate_application (c8App age yexp) taux_storage "w8").feasibility_score < 100 := by
  have hb := c8_payment_bounds
  have hpe := c8_payment_eq age yexp
  have hnf : notary_fees (c8App age yexp) = 16000 := by
    show calculate_notary_fees 200000 PropertyType.ancien = 16000
    rw [calculate_notary_fees, if_neg (by simp)]
    norm_num
  have htb : total_budget (c8App age yexp) = 216000 := by
    show (200000 : ℚ) + notary_fees (c8App age yexp) = 216000
    rw [hnf]; norm_num
  have hmc : min_contribution (c8App age yexp) = 21600 := by
    rw [min_contribution, htb]; norm_num
  have hap : apport_ok (c8App age yexp) = false := by
    rw [apport_ok, decide_eq_false_iff_not, hmc]
    have h2 : (c8App age yexp).project.personal_contribution = 20000 := rfl
    rw [h2]
    norm_num
  refine ⟨hnf, htb, c8_loan_amount age yexp, ?_, ?_, hap, ?_, ?_⟩
  · show current_rate (c8App age yexp) taux_storage = 0.0316
    exact Eq.trans
      (rfl : current_rate (c8App age yexp) taux_storage =
        TauxService.get_current_rate taux_storage 20)
      (rfl : TauxService.get_current_rate taux_storage 20 = 0.0316)
  · show |monthly_payment (c8App age yexp) taux_storage - 1103| ≤ 1
    rw [hpe, abs_le]
    constructor <;> linarith [hb.1, hb.2]
  · show recommendations (c8App age yexp) taux_storage ≠ []
    rw [recommendations, hap]
    simp only [Bool.false_eq_true, if_false]
    intro hnil
    simp only [List.append_eq_nil] at hnil
    exact absurd hnil.1.1.1.1 (List.cons_ne_nil _ _)
  · show score (c8App age yexp) taux_storage < 100
    have := score_le_of_apport_fail (c8App age yexp) taux_storage hap
    omega

end DossierImmo
